import Mathlib

/-!
Shallow embedding of the wiil-python SDK's transport and validation layers.

The definitions below are translated from:
* `src/wiil/client/http_client.py` (`HttpClient.get/post/put/patch/delete`,
  `HttpClient._handle_http_error`),
* `src/wiil/client/wiil_client.py` (`WiilClient.__init__`, `_validate_config`),
* `src/wiil/resources/business_mgt/customers.py` (`CustomersResource`),
* `src/wiil/types/paginated_result.py` (`PaginationMeta`),
* `src/wiil/models/business_mgt/customer.py` (`CreateCustomer`),
together with the parts of the Python standard library and the `requests` /
`pydantic` libraries that those functions depend on (JSON values and
truthiness, `urllib.parse.quote`/`urlencode`/`urlparse`, `str.strip`,
`Response.raise_for_status`, `Response.json`, pydantic model construction
with aliases and `model_dump`).
-/

namespace Wiil

/-- JSON values as produced by `json.loads` / `Response.json()`.  Numbers are
modelled as integers (the envelope fields the claims touch are booleans,
strings, objects and small integers).  Objects are association lists with the
key order of the underlying Python `dict`; keys are assumed unique, matching
`dict` semantics. -/
inductive Json where
  | null
  | bool (b : Bool)
  | num (n : Int)
  | str (s : String)
  | arr (elems : List Json)
  | obj (fields : List (String × Json))

/-- Lookup in a JSON object's association list: `d.get(key)` returning the
first binding, `none` when the key is absent (Python `dict`s have unique
keys, so first = only). -/
def lookupJ : List (String × Json) → String → Option Json
  | [], _ => none
  | (k, v) :: rest, key => if k = key then some v else lookupJ rest key

/-- Python truthiness (`bool(x)`) of a JSON value: `None`, `False`, `0`, `''`,
`[]` and `{}` are falsy, everything else is truthy. -/
def pyTruthy : Json → Bool
  | .null => false
  | .bool b => b
  | .num n => n != 0
  | .str s => s != ""
  | .arr es => !es.isEmpty
  | .obj fs => !fs.isEmpty

/-- Whether a JSON value is an object (Python `isinstance(x, dict)`). -/
def Json.isObj : Json → Bool
  | .obj _ => true
  | _ => false

/-- Whether a JSON value is `null` (Python `None`). -/
def Json.isNull : Json → Bool
  | .null => true
  | _ => false

/-- The `WiilAPIError` payload (`src/wiil/errors/exceptions.py`):
`message`, optional `status_code`, `code` and `details`.  `message`, `code`
and `details` are JSON values because `_handle_http_error` fills them with
`dict.get` results, which can be any JSON value; Python `None` is `Json.null`. -/
structure WiilAPIError where
  message : Json
  statusCode : Option Nat
  code : Json
  details : Json

/-- An HTTP response as the transport sees it: status code, raw body text,
the result of `response.json()` (`none` models a JSON decode failure), and
the decode error's message `str(e)` (only meaningful when `jsonBody = none`). -/
structure HttpResp where
  status : Nat
  text : String
  jsonBody : Option Json
  decodeErrMsg : String

/-- Message text of the generic API failure, `f'Request failed with status
{status_code}'`. -/
def failMsg (status : Nat) : String :=
  s!"Request failed with status {status}"

/-- Fallback error of `_handle_http_error` for non-standard error responses:
generic message, code `'UNKNOWN_ERROR'`, raw response text as details. -/
def fallbackApiError (r : HttpResp) : WiilAPIError :=
  { message := .str (failMsg r.status)
    statusCode := some r.status
    code := .str "UNKNOWN_ERROR"
    details := .obj [("response_text", .str r.text)] }

/-- Embedding of `HttpClient._handle_http_error`
(`src/wiil/client/http_client.py`).  Given the error response it returns the
`WiilAPIError` the method builds; `none` models the uncaught `AttributeError`
that Python raises when the body is a dict with a falsy `success` and an
`error` key bound to a non-dict value (then `error_info.get(...)` has no
`get` attribute and the exception escapes `_handle_http_error`, which only
catches `json.JSONDecodeError` and `ValueError`). -/
def handleHttpError (r : HttpResp) : Option WiilAPIError :=
  match r.jsonBody with
  | none => some (fallbackApiError r)
  | some j =>
    match j with
    | .obj kvs =>
      if pyTruthy ((lookupJ kvs "success").getD (.bool true)) then
        some (fallbackApiError r)
      else
        match (lookupJ kvs "error").getD (.obj []) with
        | .obj ekvs =>
          some
            { message := (lookupJ ekvs "message").getD (.str (failMsg r.status))
              statusCode := some r.status
              code := (lookupJ ekvs "code").getD (.str "UNKNOWN_ERROR")
              details := (lookupJ ekvs "details").getD .null }
        | _ => none
    | _ => some (fallbackApiError r)

/-- Outcome of one transport call, classified by the exception (or return)
that reaches the caller of `HttpClient.get/post/put/patch/delete`. -/
inductive TransportOutcome where
  | success (v : Json)
  | apiError (e : WiilAPIError)
  | networkError (message : String) (details : Json)
  | validationError (message : Json) (details : Json)
  | pythonError

/-- Unwrapping of a parsed 2xx body: `response_data['data']` when the body is
a dict containing `'data'`, else the whole body (the tail of each verb's
`try` block in `src/wiil/client/http_client.py`). -/
def unwrapData (j : Json) : Json :=
  match j with
  | .obj kvs =>
    match lookupJ kvs "data" with
    | some v => v
    | none => j
  | _ => j

/-- Shared response handling of `HttpClient.get/post/put/patch` once a
response has arrived.  `raise_for_status` raises `requests.HTTPError` exactly
for statuses in `[400, 600)`; that error is handed to `_handle_http_error`.
Otherwise `response.json()` runs: on success the `data` field is unwrapped.
On decode failure the raised exception depends on the installed `requests`
version, captured by `modern`: since requests 2.27, `Response.json()` raises
`requests.exceptions.JSONDecodeError`, a subclass of `RequestException`, so
the `except RequestException` clause (which precedes the
`except json.JSONDecodeError` clause) catches it and raises
`WiilNetworkError`; before 2.27 a plain `json.JSONDecodeError` was raised and
the last clause turned it into `WiilAPIError('Invalid JSON response from
API')`. -/
def handleResponse (modern : Bool) (url : String) (r : HttpResp) : TransportOutcome :=
  if 400 ≤ r.status ∧ r.status < 600 then
    match handleHttpError r with
    | some e => .apiError e
    | none => .pythonError
  else
    match r.jsonBody with
    | some j => .success (unwrapData j)
    | none =>
      if modern then
        .networkError s!"Network error occurred: {r.decodeErrMsg}"
          (.obj [("url", .str url), ("error", .str r.decodeErrMsg)])
      else
        .apiError
          { message := .str "Invalid JSON response from API"
            statusCode := none
            code := .null
            details := .obj [("error", .str r.decodeErrMsg)] }

/-- Response handling of `HttpClient.delete`: identical to the other verbs
except that an empty body text short-circuits to a successful `None` before
`response.json()` is called. -/
def deleteHandle (modern : Bool) (url : String) (r : HttpResp) : TransportOutcome :=
  if 400 ≤ r.status ∧ r.status < 600 then
    match handleHttpError r with
    | some e => .apiError e
    | none => .pythonError
  else
    if r.text ≠ "" then
      match r.jsonBody with
      | some j => .success (unwrapData j)
      | none =>
        if modern then
          .networkError s!"Network error occurred: {r.decodeErrMsg}"
            (.obj [("url", .str url), ("error", .str r.decodeErrMsg)])
        else
          .apiError
            { message := .str "Invalid JSON response from API"
              statusCode := none
              code := .null
              details := .obj [("error", .str r.decodeErrMsg)] }
    else
      .success .null

/-- One pydantic field declaration (`pydantic.Field`): the Python attribute
name, the optional wire alias, and the default value (`none` means the field
is required).  The SDK's schemas are declared with
`validate_by_name=True, validate_by_alias=True`, so construction accepts
either the name or the alias.  Value-level constraints (e.g. `EmailStr`) are
not modelled; the modelled validation-failure mode is a missing required
field, which is one of pydantic's `ValidationError` causes. -/
structure FieldSpec where
  name : String
  wireAlias : Option String
  dflt : Option Json

/-- A pydantic model class is its ordered list of field declarations. -/
abbrev PSchema := List FieldSpec

/-- A pydantic model instance: each field paired with its stored value. -/
abbrev PyModel := List (FieldSpec × Json)

/-- Keyword lookup during model construction: the wire alias is tried first,
then the attribute name (`validate_by_alias` and `validate_by_name` both
set). -/
def resolveKw (kvs : List (String × Json)) (f : FieldSpec) : Option Json :=
  match f.wireAlias with
  | some a =>
    match lookupJ kvs a with
    | some v => some v
    | none => lookupJ kvs f.name
  | none => lookupJ kvs f.name

/-- Shape of one entry of pydantic's `ValidationError.errors()` for a missing
required field. -/
def missingFieldError (f : FieldSpec) : Json :=
  .obj [("type", .str "missing"), ("loc", .arr [.str f.name])]

/-- Model construction `schema(**kwargs)`: every required field must be
supplied (by name or alias); optional fields fall back to their defaults;
extra keys are ignored (pydantic's default `extra='ignore'`).  On failure the
result is the `ValidationError.errors()` list. -/
def construct (s : PSchema) (kvs : List (String × Json)) : Except Json PyModel :=
  let missing := s.filter fun f => (resolveKw kvs f).isNone && f.dflt.isNone
  if missing.isEmpty then
    .ok (s.map fun f =>
      (f, match resolveKw kvs f with
          | some v => v
          | none => f.dflt.getD .null))
  else
    .error (.arr (missing.map missingFieldError))

/-- Serialization `model_dump(by_alias=..., exclude_none=...)`: emits each
field under its alias (when `byAlias` and an alias exists) or its name,
skipping `None` values when `excludeNone`. -/
def modelDump (byAlias excludeNone : Bool) (m : PyModel) : List (String × Json) :=
  m.filterMap fun fv =>
    if excludeNone && fv.2.isNull then none
    else some (if byAlias then fv.1.wireAlias.getD fv.1.name else fv.1.name, fv.2)

/-- The request payload handed to a body-carrying verb, tagged by its Python
runtime type, which drives the `isinstance(data, dict)` /
`isinstance(data, BaseModel)` checks: a plain `dict`, a pydantic `BaseModel`
instance, or any other value (list, string, number, `None`, ...). -/
inductive Body where
  | dict (kvs : List (String × Json))
  | model (m : PyModel)
  | other (v : Json)

/-- The pre-send validation block of `HttpClient.post/put/patch`
(`if schema: ...`): a `dict` body is validated by `schema(**data)` and
replaced by `validated_data.model_dump(exclude_none=True)`; a `BaseModel`
body is replaced by `data.model_dump(exclude_none=True)`; any other body is
left untouched.  A `ValidationError` becomes the `.error` case, which the
Python code wraps into `WiilValidationError('Request validation failed',
details=e.errors())`. -/
def validatePhase (schema : Option PSchema) (body : Body) : Except Json Body :=
  match schema with
  | none => .ok body
  | some s =>
    match body with
    | .dict kvs =>
      match construct s kvs with
      | .error e => .error e
      | .ok m => .ok (.dict (modelDump false true m))
    | .model m => .ok (.dict (modelDump false true m))
    | .other _ => .ok body

/-- One HTTP request as actually issued: the full URL and the JSON payload
(`none` for the body-less verbs `get`/`delete`). -/
structure SentRequest where
  url : String
  payload : Option Json

/-- Result of one verb call: whether a request was issued (and with what URL
and payload), and the outcome surfaced to the caller. -/
structure OpResult where
  sent : Option SentRequest
  outcome : TransportOutcome

/-- Embedding of `HttpClient.get`: builds `url = base_url + path`, issues the
request and handles the response. -/
def getRun (modern : Bool) (baseUrl path : String) (r : HttpResp) : OpResult :=
  { sent := some ⟨baseUrl ++ path, none⟩
    outcome := handleResponse modern (baseUrl ++ path) r }

/-- Shared embedding of the three body-carrying verbs `HttpClient.post`,
`HttpClient.put` and `HttpClient.patch`, whose Python bodies are identical:
optional pre-send validation, then the request with the (possibly replaced)
JSON payload, then shared response handling.  A validation failure means no
request is issued (`sent := none`).  A raw `BaseModel` body with no schema is
not JSON-serializable by `requests`; that failure mode is outside every
claim and is modelled as an unclassified Python-level failure with no request
sent. -/
def bodyVerbRun (modern : Bool) (baseUrl path : String) (schema : Option PSchema)
    (body : Body) (r : HttpResp) : OpResult :=
  match validatePhase schema body with
  | .error e =>
    { sent := none
      outcome := .validationError (.str "Request validation failed") e }
  | .ok b =>
    match b with
    | .dict kvs =>
      { sent := some ⟨baseUrl ++ path, some (.obj kvs)⟩
        outcome := handleResponse modern (baseUrl ++ path) r }
    | .other v =>
      { sent := some ⟨baseUrl ++ path, some v⟩
        outcome := handleResponse modern (baseUrl ++ path) r }
    | .model _ => { sent := none, outcome := .pythonError }

/-- Embedding of `HttpClient.post`. -/
def postRun (modern : Bool) (baseUrl path : String) (schema : Option PSchema)
    (body : Body) (r : HttpResp) : OpResult :=
  bodyVerbRun modern baseUrl path schema body r

/-- Embedding of `HttpClient.put` (same body as `post` in the source). -/
def putRun (modern : Bool) (baseUrl path : String) (schema : Option PSchema)
    (body : Body) (r : HttpResp) : OpResult :=
  bodyVerbRun modern baseUrl path schema body r

/-- Embedding of `HttpClient.patch` (same body as `post` in the source). -/
def patchRun (modern : Bool) (baseUrl path : String) (schema : Option PSchema)
    (body : Body) (r : HttpResp) : OpResult :=
  bodyVerbRun modern baseUrl path schema body r

/-- Embedding of `HttpClient.delete`. -/
def deleteRun (modern : Bool) (baseUrl path : String) (r : HttpResp) : OpResult :=
  { sent := some ⟨baseUrl ++ path, none⟩
    outcome := deleteHandle modern (baseUrl ++ path) r }

/-- UTF-8 encoding of one character, as `urllib.parse.quote` encodes
non-ASCII input before percent-escaping. -/
def utf8Bytes (c : Char) : List Nat :=
  let n := c.toNat
  if n < 0x80 then [n]
  else if n < 0x800 then [0xC0 + n / 64, 0x80 + n % 64]
  else if n < 0x10000 then [0xE0 + n / 4096, 0x80 + (n / 64) % 64, 0x80 + n % 64]
  else [0xF0 + n / 262144, 0x80 + (n / 4096) % 64, 0x80 + (n / 64) % 64, 0x80 + n % 64]

/-- Uppercase hexadecimal digit, as used by `urllib.parse.quote`. -/
def hexDigit (n : Nat) : Char :=
  if n < 10 then Char.ofNat (48 + n) else Char.ofNat (55 + n)

/-- Two-digit uppercase hexadecimal rendering of a byte. -/
def hexByte (b : Nat) : String :=
  String.mk [hexDigit (b / 16), hexDigit (b % 16)]

/-- Characters `urllib.parse.quote` never escapes (`_ALWAYS_SAFE`): ASCII
letters, digits and `_.-~`. -/
def alwaysSafe (c : Char) : Bool :=
  c.isAlpha || c.isDigit || c == '_' || c == '.' || c == '-' || c == '~'

/-- Percent-escaping of one character under `quote(s, safe='')`. -/
def pyQuoteChar (c : Char) : String :=
  if alwaysSafe c then String.singleton c
  else String.join ((utf8Bytes c).map fun b => "%" ++ hexByte b)

/-- Embedding of `urllib.parse.quote(s, safe='')`: every character outside
the always-safe set is percent-encoded (no extra characters are treated as
safe). -/
def pyQuote (s : String) : String :=
  String.join (s.toList.map pyQuoteChar)

/-- Percent-escaping of one character under `quote_plus`: like `quote` with
no safe characters, except that a space becomes `+`. -/
def pyQuotePlusChar (c : Char) : String :=
  if c == ' ' then "+" else pyQuoteChar c

/-- Embedding of `urllib.parse.quote_plus(s)`. -/
def pyQuotePlus (s : String) : String :=
  String.join (s.toList.map pyQuotePlusChar)

/-- Embedding of `urllib.parse.urlencode` on string-valued parameters (the
SDK stringifies `int` values via `str`): `k1=v1&k2=v2&...` with `quote_plus`
applied to keys and values. -/
def urlencodeParams (params : List (String × String)) : String :=
  String.intercalate "&" (params.map fun kv => pyQuotePlus kv.1 ++ "=" ++ pyQuotePlus kv.2)

/-- Query parameters built by `CustomersResource.list`
(`src/wiil/resources/business_mgt/customers.py`): `page` then `pageSize`,
each present exactly when the corresponding argument is not `None`. -/
def customersListParams (page pageSize : Option Int) : List (String × String) :=
  (match page with
   | some p => [("page", toString p)]
   | none => []) ++
  (match pageSize with
   | some s => [("pageSize", toString s)]
   | none => [])

/-- Path built by `CustomersResource.list`: `'/customers'` plus
`'?' + urlencode(params)` only when `params` is non-empty. -/
def customersListPath (page pageSize : Option Int) : String :=
  let params := customersListParams page pageSize
  "/customers" ++ (if params.isEmpty then "" else "?" ++ urlencodeParams params)

/-- Embedding of `CustomersResource.list`: one `get` on the built path. -/
def customersList (modern : Bool) (baseUrl : String) (page pageSize : Option Int)
    (r : HttpResp) : OpResult :=
  getRun modern baseUrl (customersListPath page pageSize) r

/-- Path built by `CustomersResource.get_by_phone`:
`f'/customers/phone/{quote(phone_number, safe="")}'`. -/
def customersGetByPhonePath (phoneNumber : String) : String :=
  "/customers/phone/" ++ pyQuote phoneNumber

/-- Embedding of `CustomersResource.get_by_phone`: one `get` on the built
path. -/
def customersGetByPhone (modern : Bool) (baseUrl phoneNumber : String)
    (r : HttpResp) : OpResult :=
  getRun modern baseUrl (customersGetByPhonePath phoneNumber) r

/-- The `CreateCustomer` pydantic schema
(`src/wiil/models/business_mgt/customer.py`).  `CreateCustomer` subclasses
`wiil.models.base.BaseModel` (not pydantic's), so — despite its docstring
claiming the auto-generated fields are omitted — it inherits the required
`id` and the optional `created_at`/`updated_at` (aliases
`createdAt`/`updatedAt`) from `src/wiil/models/base.py`; pydantic collects
base-class fields first, then the subclass's own fields in declaration
order.  Enum defaults are string enums (`CallPriority.MEDIUM = 'medium'`,
`PreferredContactMethod.EMAIL = 'email'`), modelled by their string values. -/
def CreateCustomerSchema : PSchema :=
  [ ⟨"id", none, none⟩
  , ⟨"created_at", some "createdAt", some .null⟩
  , ⟨"updated_at", some "updatedAt", some .null⟩
  , ⟨"customer_id", some "customerId", some .null⟩
  , ⟨"phone_number", none, some .null⟩
  , ⟨"firstname", none, some .null⟩
  , ⟨"lastname", none, some .null⟩
  , ⟨"company", none, some .null⟩
  , ⟨"timezone", none, some .null⟩
  , ⟨"email", none, some .null⟩
  , ⟨"preferred_language", none, some (.str "en")⟩
  , ⟨"call_priority", none, some (.str "medium")⟩
  , ⟨"preferred_contact_method", none, some (.str "email")⟩
  , ⟨"best_time_to_call", none, some .null⟩
  , ⟨"notes", none, some .null⟩
  , ⟨"tags", none, some .null⟩
  , ⟨"custom_fields", none, some .null⟩
  , ⟨"channel_id", some "channelId", some .null⟩
  , ⟨"address", none, some .null⟩
  , ⟨"is_validated_names", some "isValidatedNames", some (.bool false)⟩ ]

/-- Embedding of `CustomersResource.create`: `data = CreateCustomer(**kwargs)`
(an uncaught pydantic `ValidationError` is the `.error` case), then
`self._http.post('/customers', data.model_dump(by_alias=True,
exclude_none=True), schema=CreateCustomer)`. -/
def customersCreate (modern : Bool) (baseUrl : String)
    (kwargs : List (String × Json)) (r : HttpResp) : Except Json OpResult :=
  match construct CreateCustomerSchema kwargs with
  | .error e => .error e
  | .ok m =>
    .ok (postRun modern baseUrl "/customers" (some CreateCustomerSchema)
      (.dict (modelDump true true m)) r)

/-- Python whitespace stripped by `str.strip()` (ASCII part: space, tab,
newline, carriage return, vertical tab, form feed; Python additionally
strips some Unicode space characters, which no claim exercises). -/
def pyWhitespace (c : Char) : Bool :=
  c == ' ' || c == '\t' || c == '\n' || c == '\r' ||
  c == Char.ofNat 11 || c == Char.ofNat 12

/-- Embedding of `str.strip()`. -/
def pyStrip (s : String) : String :=
  String.mk (((s.toList.dropWhile pyWhitespace).reverse.dropWhile pyWhitespace).reverse)

/-- Embedding of `str.rstrip('/')`, used by `HttpClient.__init__` on the base
URL. -/
def pyRstripSlash (s : String) : String :=
  String.mk ((s.toList.reverse.dropWhile (· == '/')).reverse)

/-- Characters allowed in a URL scheme by `urllib.parse`
(`scheme_chars`): ASCII letters, digits and `+-.`. -/
def schemeChar (c : Char) : Bool :=
  c.isAlpha || c.isDigit || c == '+' || c == '-' || c == '.'

/-- Split a character list at the first `':'`; `none` when there is no
colon. -/
def splitAtColon : List Char → Option (List Char × List Char)
  | [] => none
  | c :: cs =>
    if c = ':' then some ([], cs)
    else
      match splitAtColon cs with
      | some (pre, post) => some (c :: pre, post)
      | none => none

/-- Scheme extraction of `urllib.parse.urlsplit`: the text before the first
`':'` is the scheme when it is non-empty, starts with an ASCII letter and
consists of scheme characters; it is lowercased.  Otherwise the scheme is
empty and the whole input remains. -/
def splitScheme (url : List Char) : List Char × List Char :=
  match splitAtColon url with
  | some (pre, post) =>
    match pre with
    | [] => ([], url)
    | c :: _ =>
      if c.isAlpha && pre.all schemeChar then (pre.map Char.toLower, post)
      else ([], url)
  | none => ([], url)

/-- Netloc extraction of `urllib.parse.urlsplit`: when the remainder after
the scheme starts with `'//'`, the netloc runs up to the next `'/'`, `'?'`
or `'#'`; otherwise it is empty. -/
def extractNetloc (rest : List Char) : List Char :=
  match rest with
  | '/' :: '/' :: tl => tl.takeWhile fun c => !(c == '/' || c == '?' || c == '#')
  | _ => []

/-- Bracket sanity check of `urllib.parse.urlsplit`: it raises
`ValueError('Invalid IPv6 URL')` when the netloc contains `'['` without
`']'` or vice versa. -/
def bracketsOk (netloc : List Char) : Bool :=
  netloc.contains '[' == netloc.contains ']'

/-- The base-URL check of `WiilClient._validate_config`:
`urlparse(base_url)` must succeed (no unbalanced-bracket `ValueError`) and
yield a truthy scheme and netloc (`all([result.scheme, result.netloc])`);
both a raised `ValueError` and a falsy component are caught by the
surrounding `except` and turned into the same configuration error. -/
def urlHasSchemeAndHost (url : String) : Bool :=
  let sr := splitScheme url.toList
  let netloc := extractNetloc sr.2
  !sr.1.isEmpty && !netloc.isEmpty && bracketsOk netloc

/-- The `WiilConfigurationError` payload: its message string. -/
structure WiilConfigurationError where
  message : String

/-- Embedding of `WiilClient._validate_config`
(`src/wiil/client/wiil_client.py`): the first failing check wins, in source
order — empty API key, blank API key, base URL without scheme+host,
non-positive timeout. -/
def validateConfig (apiKey baseUrl : String) (timeout : Int) :
    Option WiilConfigurationError :=
  if apiKey = "" then
    some ⟨"API key is required. Please provide a valid API key in the configuration."⟩
  else if pyStrip apiKey = "" then
    some ⟨"API key cannot be empty. Please provide a valid API key."⟩
  else if !urlHasSchemeAndHost baseUrl then
    some ⟨s!"Invalid base URL: {baseUrl}. Please provide a valid URL."⟩
  else if timeout ≤ 0 then
    some ⟨"Timeout must be a positive number in seconds."⟩
  else
    none

/-- State of a constructed `HttpClient` (`HttpClient.__init__`): the stored
key, the base URL with trailing slashes stripped, the timeout, and the
session headers. -/
structure HttpClientState where
  apiKey : String
  baseUrl : String
  timeout : Int
  sessionHeaders : List (String × String)

/-- Construction of the transport from a validated configuration
(`HttpClient.__init__`). -/
def mkHttpClient (apiKey baseUrl : String) (timeout : Int) : HttpClientState :=
  { apiKey := apiKey
    baseUrl := pyRstripSlash baseUrl
    timeout := timeout
    sessionHeaders :=
      [("Content-Type", "application/json"), ("X-WIIL-API-Key", apiKey)] }

/-- Embedding of `WiilClient.__init__`: `_validate_config` runs first and a
configuration error aborts construction before the transport exists (the
`.error` case carries no `HttpClientState`); only when validation passes is
the transport constructed and returned. -/
def wiilClientInit (apiKey baseUrl : String) (timeout : Int) :
    Except WiilConfigurationError HttpClientState :=
  match validateConfig apiKey baseUrl timeout with
  | some e => .error e
  | none => .ok (mkHttpClient apiKey baseUrl timeout)

/-- Characterization of the error bodies that take `_handle_http_error`'s
fallback branch: the body is not JSON, or it is not a dict, or its `success`
key is absent or truthy (the code tests
`not error_data.get('success', True)`). -/
def nonEnvelopeBody (r : HttpResp) : Prop :=
  match r.jsonBody with
  | none => True
  | some (.obj kvs) => ∀ s, lookupJ kvs "success" = some s → pyTruthy s = true
  | some _ => True

/-- Generic association-list lookup for string-valued query parameters. -/
def lookupStr : List (String × String) → String → Option String
  | [], _ => none
  | (k, v) :: rest, key => if k = key then some v else lookupStr rest key

/-- The validation performed on `PaginationMeta`
(`src/wiil/types/paginated_result.py`) at deserialization: the `Field`
constraints `page > 0`, `page_size > 0`, `page_size ≤ 1000`,
`total_count ≥ 0`, `total_pages ≥ 0`.  The two boolean flags carry no
constraint beyond their type. -/
def paginationMetaAccepts (page pageSize totalCount totalPages : Int)
    (_hasNextPage _hasPreviousPage : Bool) : Bool :=
  decide (0 < page) && decide (0 < pageSize) && decide (pageSize ≤ 1000) &&
  decide (0 ≤ totalCount) && decide (0 ≤ totalPages)

/-! Helper lemmas shared by the claim theorems. -/

/-- On a body that is a dict with a falsy `success` whose `error` key is
absent (`error_data.get('error', {})` defaults to an empty dict) or holds a
dict, `_handle_http_error` returns the `WiilAPIError` built from the error
dict's fields with the `.get` defaults for missing keys. -/
theorem handleHttpError_envelope (r : HttpResp) (kvs ekvs : List (String × Json))
    (s : Json)
    (hbody : r.jsonBody = some (.obj kvs))
    (hs : lookupJ kvs "success" = some s) (hfalse : pyTruthy s = false)
    (herr : (lookupJ kvs "error").getD (.obj []) = .obj ekvs) :
    handleHttpError r = some
      ⟨(lookupJ ekvs "message").getD (.str (failMsg r.status)),
       some r.status,
       (lookupJ ekvs "code").getD (.str "UNKNOWN_ERROR"),
       (lookupJ ekvs "details").getD .null⟩ := by
  simp [handleHttpError, hbody, hs, hfalse, herr]

/-- On a body that is a dict with a falsy `success` whose `error` key holds a
non-dict value, `_handle_http_error` lets an `AttributeError` escape
(`error_info.get(...)` on a non-dict), modelled as `none`. -/
theorem handleHttpError_attrError (r : HttpResp) (kvs : List (String × Json))
    (s ev : Json)
    (hbody : r.jsonBody = some (.obj kvs))
    (hs : lookupJ kvs "success" = some s) (hfalse : pyTruthy s = false)
    (herr : lookupJ kvs "error" = some ev) (hne : ev.isObj = false) :
    handleHttpError r = none := by
  simp [handleHttpError, hbody, hs, hfalse, herr]
  cases ev <;> simp_all [Json.isObj]

/-- On any body outside the standard error envelope shape,
`_handle_http_error` returns the fallback error. -/
theorem handleHttpError_fallback (r : HttpResp) (h : nonEnvelopeBody r) :
    handleHttpError r = some (fallbackApiError r) := by
  unfold handleHttpError
  rcases hb : r.jsonBody with _ | j
  · simp
  · have hmatch := h
    unfold nonEnvelopeBody at hmatch
    rw [hb] at hmatch
    rcases j with _ | b | n | st | es | kvs
    · simp
    · simp
    · simp
    · simp
    · simp
    · have h' : ∀ s, lookupJ kvs "success" = some s → pyTruthy s = true := hmatch
      cases hls : lookupJ kvs "success" with
      | none => simp [hls, pyTruthy]
      | some s => simp [hls, h' s hls]

/-- For a 4xx/5xx status, both response handlers surface the error
`_handle_http_error` builds. -/
theorem handleResponse_apiError_of (modern : Bool) (url : String) (r : HttpResp)
    (e : WiilAPIError)
    (h4 : 400 ≤ r.status) (h6 : r.status < 600)
    (he : handleHttpError r = some e) :
    handleResponse modern url r = .apiError e ∧
    deleteHandle modern url r = .apiError e := by
  have hrange : 400 ≤ r.status ∧ r.status < 600 := ⟨h4, h6⟩
  constructor <;> simp [handleResponse, deleteHandle, hrange, he]

/-- For a 4xx/5xx status where `_handle_http_error` lets the
`AttributeError` escape, both response handlers surface the uncaught
Python-level failure. -/
theorem handleResponse_pythonError_of (modern : Bool) (url : String) (r : HttpResp)
    (h4 : 400 ≤ r.status) (h6 : r.status < 600)
    (he : handleHttpError r = none) :
    handleResponse modern url r = .pythonError ∧
    deleteHandle modern url r = .pythonError := by
  have hrange : 400 ≤ r.status ∧ r.status < 600 := ⟨h4, h6⟩
  constructor <;> simp [handleResponse, deleteHandle, hrange, he]

/-- Response handling never produces a validation error: validation happens
only before a request is sent. -/
theorem handleResponse_ne_validation (modern : Bool) (url : String) (r : HttpResp)
    (m d : Json) : handleResponse modern url r ≠ .validationError m d := by
  intro h
  unfold handleResponse at h
  split at h
  · split at h <;> simp_all
  · split at h
    · simp_all
    · split at h <;> simp_all

/-- Every field of a constructed model is one of the schema's fields. -/
theorem construct_mem (s : PSchema) (kvs : List (String × Json)) (m : PyModel)
    (h : construct s kvs = .ok m) : ∀ fv ∈ m, fv.1 ∈ s := by
  intro fv hfv
  by_cases hmiss : (s.filter fun f => (resolveKw kvs f).isNone && f.dflt.isNone).isEmpty
  · simp only [construct, hmiss, if_true] at h
    have hm : m = s.map fun f =>
      (f, match resolveKw kvs f with
          | some v => v
          | none => f.dflt.getD .null) := by
      exact (Except.ok.inj h).symm
    subst hm
    obtain ⟨f, hf, hfe⟩ := List.mem_map.mp hfv
    have : fv.1 = f := by rw [← hfe]
    rw [this]
    exact hf
  · simp [construct, hmiss] at h

/-- Every entry of a `model_dump(..., exclude_none=True)` comes from a model
field, is keyed by that field's name (or alias), and is not `None`. -/
theorem modelDump_mem (byAlias : Bool) (m : PyModel) (k : String) (v : Json)
    (h : (k, v) ∈ modelDump byAlias true m) :
    ∃ fv ∈ m, v = fv.2 ∧ v.isNull = false ∧
      k = (if byAlias then fv.1.wireAlias.getD fv.1.name else fv.1.name) := by
  unfold modelDump at h
  obtain ⟨fv, hfv, heq⟩ := List.mem_filterMap.mp h
  by_cases hn : fv.2.isNull
  · simp [hn] at heq
  · simp [hn] at heq
    exact ⟨fv, hfv, heq.2.symm, heq.2 ▸ Bool.of_not_eq_true hn, heq.1.symm⟩

/-- A value whose `isNull` test is false is not the JSON `null`. -/
theorem isNull_false_ne (v : Json) (h : v.isNull = false) : v ≠ Json.null := by
  intro hv
  subst hv
  simp [Json.isNull] at h

/-! Claim theorems. -/

/-- Claim C1, counterexample to the statement as written: the claim
quantifies over every non-2xx status, but `raise_for_status` raises only for
4xx/5xx, so a 300 response with a JSON body is treated as success — `get`
returns the unwrapped `data` value and no `WiilAPIError` is raised. -/
theorem claim1_counterexample :
    (getRun true "https://api.wiil.io/v1" "/organizations"
      ⟨300, "body", some (.obj [("data", .num 5)]), ""⟩).outcome = .success (.num 5) ∧
    ¬ ∃ e, (getRun true "https://api.wiil.io/v1" "/organizations"
      ⟨300, "body", some (.obj [("data", .num 5)]), ""⟩).outcome = .apiError e := by
  refine ⟨rfl, ?_⟩
  rintro ⟨e, h⟩
  exact TransportOutcome.noConfusion h

/-- Claim C1 (amended): exhaustive behavior on 4xx/5xx statuses (only these
trigger `raise_for_status`).  When the body parses as JSON to a dict whose
`success` key is present and falsy and whose `error` key is absent or holds
a dict, each transport operation raises a `WiilAPIError` carrying the status
code and the error dict's `message`/`code`/`details`, with the `.get`
defaults `'Request failed with status N'` / `'UNKNOWN_ERROR'` / `None` for
missing keys.  When the body is not JSON, not a dict, or its `success` key
is absent or truthy, the error carries the status code, the generic message,
`'UNKNOWN_ERROR'` and the raw response text as details.  In the remaining
case — falsy `success` with a non-dict `error` value — no `WiilAPIError` is
raised: `error_info.get(...)` raises an uncaught `AttributeError`. -/
theorem claim1_amended :
    (∀ (modern : Bool) (base path : String) (r : HttpResp)
      (bodyKvs kvs ekvs : List (String × Json)) (s : Json),
      400 ≤ r.status → r.status < 600 →
      r.jsonBody = some (.obj kvs) →
      lookupJ kvs "success" = some s → pyTruthy s = false →
      (lookupJ kvs "error").getD (.obj []) = .obj ekvs →
      (getRun modern base path r).outcome =
        .apiError ⟨(lookupJ ekvs "message").getD (.str (failMsg r.status)),
          some r.status,
          (lookupJ ekvs "code").getD (.str "UNKNOWN_ERROR"),
          (lookupJ ekvs "details").getD .null⟩ ∧
      (postRun modern base path none (.dict bodyKvs) r).outcome =
        .apiError ⟨(lookupJ ekvs "message").getD (.str (failMsg r.status)),
          some r.status,
          (lookupJ ekvs "code").getD (.str "UNKNOWN_ERROR"),
          (lookupJ ekvs "details").getD .null⟩ ∧
      (putRun modern base path none (.dict bodyKvs) r).outcome =
        .apiError ⟨(lookupJ ekvs "message").getD (.str (failMsg r.status)),
          some r.status,
          (lookupJ ekvs "code").getD (.str "UNKNOWN_ERROR"),
          (lookupJ ekvs "details").getD .null⟩ ∧
      (patchRun modern base path none (.dict bodyKvs) r).outcome =
        .apiError ⟨(lookupJ ekvs "message").getD (.str (failMsg r.status)),
          some r.status,
          (lookupJ ekvs "code").getD (.str "UNKNOWN_ERROR"),
          (lookupJ ekvs "details").getD .null⟩ ∧
      (deleteRun modern base path r).outcome =
        .apiError ⟨(lookupJ ekvs "message").getD (.str (failMsg r.status)),
          some r.status,
          (lookupJ ekvs "code").getD (.str "UNKNOWN_ERROR"),
          (lookupJ ekvs "details").getD .null⟩) ∧
    (∀ (modern : Bool) (base path : String) (r : HttpResp)
      (bodyKvs : List (String × Json)),
      400 ≤ r.status → r.status < 600 →
      nonEnvelopeBody r →
      (getRun modern base path r).outcome = .apiError (fallbackApiError r) ∧
      (postRun modern base path none (.dict bodyKvs) r).outcome = .apiError (fallbackApiError r) ∧
      (putRun modern base path none (.dict bodyKvs) r).outcome = .apiError (fallbackApiError r) ∧
      (patchRun modern base path none (.dict bodyKvs) r).outcome = .apiError (fallbackApiError r) ∧
      (deleteRun modern base path r).outcome = .apiError (fallbackApiError r)) ∧
    (∀ (modern : Bool) (base path : String) (r : HttpResp)
      (bodyKvs kvs : List (String × Json)) (s ev : Json),
      400 ≤ r.status → r.status < 600 →
      r.jsonBody = some (.obj kvs) →
      lookupJ kvs "success" = some s → pyTruthy s = false →
      lookupJ kvs "error" = some ev → ev.isObj = false →
      (getRun modern base path r).outcome = .pythonError ∧
      (postRun modern base path none (.dict bodyKvs) r).outcome = .pythonError ∧
      (putRun modern base path none (.dict bodyKvs) r).outcome = .pythonError ∧
      (patchRun modern base path none (.dict bodyKvs) r).outcome = .pythonError ∧
      (deleteRun modern base path r).outcome = .pythonError) := by
  refine ⟨?_, ?_, ?_⟩
  · intro modern base path r bodyKvs kvs ekvs s h4 h6 hbody hs hfalse herr
    have he := handleHttpError_envelope r kvs ekvs s hbody hs hfalse herr
    have hh := handleResponse_apiError_of modern (base ++ path) r _ h4 h6 he
    exact ⟨hh.1, hh.1, hh.1, hh.1, hh.2⟩
  · intro modern base path r bodyKvs h4 h6 hne
    have he := handleHttpError_fallback r hne
    have hh := handleResponse_apiError_of modern (base ++ path) r _ h4 h6 he
    exact ⟨hh.1, hh.1, hh.1, hh.1, hh.2⟩
  · intro modern base path r bodyKvs kvs s ev h4 h6 hbody hs hfalse herr hne
    have he := handleHttpError_attrError r kvs s ev hbody hs hfalse herr hne
    have hh := handleResponse_pythonError_of modern (base ++ path) r h4 h6 he
    exact ⟨hh.1, hh.1, hh.1, hh.1, hh.2⟩

/-- Claim C1, witness: a 404 with a full error envelope maps to a
`WiilAPIError` carrying the envelope's fields; a 422 with a partial envelope
(only `error.code`) gets the defaulted message and `None` details; a 500
with a non-JSON body maps to the fallback error carrying the raw response
text; and a 400 whose `error` value is a string raises no `WiilAPIError`
(uncaught `AttributeError`). -/
theorem claim1_witness :
    (getRun true "https://api.wiil.io" "/organizations"
      ⟨404, "t", some (.obj [("success", .bool false),
        ("error", .obj [("code", .str "NOT_FOUND"),
                        ("message", .str "Organization not found"),
                        ("details", .null)])]), ""⟩).outcome =
      .apiError ⟨.str "Organization not found", some 404, .str "NOT_FOUND", .null⟩ ∧
    (getRun true "https://api.wiil.io" "/organizations"
      ⟨422, "t", some (.obj [("success", .bool false),
        ("error", .obj [("code", .str "BAD_REQUEST")])]), ""⟩).outcome =
      .apiError ⟨.str "Request failed with status 422", some 422,
        .str "BAD_REQUEST", .null⟩ ∧
    (getRun true "https://api.wiil.io" "/x"
      ⟨500, "oops", none, "Expecting value"⟩).outcome =
      .apiError ⟨.str "Request failed with status 500", some 500, .str "UNKNOWN_ERROR",
        .obj [("response_text", .str "oops")]⟩ ∧
    (getRun true "https://api.wiil.io" "/x"
      ⟨400, "t", some (.obj [("success", .bool false), ("error", .str "boom")]), ""⟩).outcome =
      .pythonError := by
  refine ⟨?_, ?_, ?_, ?_⟩
  · exact (claim1_amended.1 true "https://api.wiil.io" "/organizations" _ []
      [("success", .bool false),
        ("error", .obj [("code", .str "NOT_FOUND"),
                        ("message", .str "Organization not found"),
                        ("details", .null)])]
      [("code", .str "NOT_FOUND"), ("message", .str "Organization not found"), ("details", .null)]
      (.bool false) (by decide) (by decide) rfl rfl rfl rfl).1
  · exact (claim1_amended.1 true "https://api.wiil.io" "/organizations" _ []
      [("success", .bool false), ("error", .obj [("code", .str "BAD_REQUEST")])]
      [("code", .str "BAD_REQUEST")]
      (.bool false) (by decide) (by decide) rfl rfl rfl rfl).1
  · exact (claim1_amended.2.1 true "https://api.wiil.io" "/x"
      ⟨500, "oops", none, "Expecting value"⟩ [] (by decide) (by decide) trivial).1
  · exact (claim1_amended.2.2 true "https://api.wiil.io" "/x" _ []
      [("success", .bool false), ("error", .str "boom")]
      (.bool false) (.str "boom") (by decide) (by decide) rfl rfl rfl rfl rfl).1

/-- Claim C2: on a 2xx response whose body is not valid JSON, the claim (and
the code's own dedicated `except json.JSONDecodeError` clause) say a
`WiilAPIError` indicating invalid JSON is raised; but with requests ≥ 2.27
(first argument `true`) `Response.json()` raises
`requests.exceptions.JSONDecodeError`, a `RequestException` subclass, so the
earlier `except RequestException` clause catches it and a `WiilNetworkError`
is raised instead, making the invalid-JSON clause dead code; with requests
< 2.27 (first argument `false`) the claimed `WiilAPIError` is raised. -/
theorem claim2_code_divergence :
    (getRun true "https://api.wiil.io/v1" "/organizations"
      ⟨200, "not json", none, "Expecting value: line 1 column 1 (char 0)"⟩).outcome =
      .networkError "Network error occurred: Expecting value: line 1 column 1 (char 0)"
        (.obj [("url", .str "https://api.wiil.io/v1/organizations"),
               ("error", .str "Expecting value: line 1 column 1 (char 0)")]) ∧
    (getRun false "https://api.wiil.io/v1" "/organizations"
      ⟨200, "not json", none, "Expecting value: line 1 column 1 (char 0)"⟩).outcome =
      .apiError ⟨.str "Invalid JSON response from API", none, .null,
        .obj [("error", .str "Expecting value: line 1 column 1 (char 0)")]⟩ := by
  exact ⟨rfl, rfl⟩

/-- Claim C3: when a schema is supplied to `post`/`put`/`patch` and the dict
body fails validation, the call raises `WiilValidationError` carrying the
field-level violation details, and no HTTP request is issued (`sent = none`). -/
theorem claim3_validation_blocks_request : ∀ (modern : Bool) (base path : String)
    (s : PSchema) (kvs : List (String × Json)) (r : HttpResp) (e : Json),
    construct s kvs = .error e →
    postRun modern base path (some s) (.dict kvs) r =
      ⟨none, .validationError (.str "Request validation failed") e⟩ ∧
    putRun modern base path (some s) (.dict kvs) r =
      ⟨none, .validationError (.str "Request validation failed") e⟩ ∧
    patchRun modern base path (some s) (.dict kvs) r =
      ⟨none, .validationError (.str "Request validation failed") e⟩ := by
  intro modern base path s kvs r e h
  have hv : validatePhase (some s) (.dict kvs) = .error e := by
    simp [validatePhase, h]
  refine ⟨?_, ?_, ?_⟩ <;> simp [postRun, putRun, patchRun, bodyVerbRun, hv]

/-- Claim C3, witness: a schema with a required `name` field rejects an empty
body and the `post` never sends a request. -/
theorem claim3_witness :
    construct [⟨"name", none, none⟩] [] =
      .error (.arr [.obj [("type", .str "missing"), ("loc", .arr [.str "name"])]]) ∧
    postRun true "https://api.wiil.io/v1" "/organizations" (some [⟨"name", none, none⟩])
      (.dict []) ⟨200, "", some .null, ""⟩ =
      ⟨none, .validationError (.str "Request validation failed")
        (.arr [.obj [("type", .str "missing"), ("loc", .arr [.str "name"])]])⟩ := by
  refine ⟨rfl, ?_⟩
  exact (claim3_validation_blocks_request true "https://api.wiil.io/v1" "/organizations"
    [⟨"name", none, none⟩] [] ⟨200, "", some .null, ""⟩ _ rfl).1

/-- Claim C4: on a 2xx response with a JSON body, every transport operation
returns the body's `data` value when the body is a dict containing `data`,
and the whole parsed body otherwise; `delete` on a 2xx response with an
empty body returns `None`. -/
theorem claim4_success_unwrap :
    (∀ (modern : Bool) (base path : String) (r : HttpResp)
      (bodyKvs : List (String × Json)) (j : Json),
      200 ≤ r.status → r.status < 300 → r.jsonBody = some j →
      (getRun modern base path r).outcome = .success (unwrapData j) ∧
      (postRun modern base path none (.dict bodyKvs) r).outcome = .success (unwrapData j) ∧
      (putRun modern base path none (.dict bodyKvs) r).outcome = .success (unwrapData j) ∧
      (patchRun modern base path none (.dict bodyKvs) r).outcome = .success (unwrapData j) ∧
      (r.text ≠ "" → (deleteRun modern base path r).outcome = .success (unwrapData j))) ∧
    (∀ (kvs : List (String × Json)) (v : Json),
      lookupJ kvs "data" = some v → unwrapData (.obj kvs) = v) ∧
    (∀ kvs : List (String × Json),
      lookupJ kvs "data" = none → unwrapData (.obj kvs) = .obj kvs) ∧
    (∀ j : Json, j.isObj = false → unwrapData j = j) ∧
    (∀ (modern : Bool) (base path : String) (r : HttpResp),
      200 ≤ r.status → r.status < 300 → r.text = "" →
      (deleteRun modern base path r).outcome = .success .null) := by
  refine ⟨?_, ?_, ?_, ?_, ?_⟩
  · intro modern base path r bodyKvs j h2 h3 hj
    have hne : ¬(400 ≤ r.status ∧ r.status < 600) := by omega
    refine ⟨?_, ?_, ?_, ?_, fun htext => ?_⟩
    · simp [getRun, handleResponse, hne, hj]
    · simp [postRun, bodyVerbRun, validatePhase, handleResponse, hne, hj]
    · simp [putRun, bodyVerbRun, validatePhase, handleResponse, hne, hj]
    · simp [patchRun, bodyVerbRun, validatePhase, handleResponse, hne, hj]
    · simp [deleteRun, deleteHandle, hne, hj, htext]
  · intro kvs v hv
    simp [unwrapData, hv]
  · intro kvs hv
    simp [unwrapData, hv]
  · intro j hj
    cases j <;> simp_all [Json.isObj, unwrapData]
  · intro modern base path r h2 h3 ht
    have hne : ¬(400 ≤ r.status ∧ r.status < 600) := by omega
    simp [deleteRun, deleteHandle, hne, ht]

/-- Claim C4, witness: a 200 envelope with a `data` field unwraps to that
field, and a 204 `delete` with an empty body returns `None`. -/
theorem claim4_witness :
    (getRun true "https://api.wiil.io/v1" "/organizations"
      ⟨200, "body", some (.obj [("success", .bool true), ("data", .num 7)]), ""⟩).outcome =
      .success (.num 7) ∧
    (deleteRun true "https://api.wiil.io/v1" "/organizations/org1"
      ⟨204, "", none, ""⟩).outcome = .success .null := by
  constructor
  · exact (claim4_success_unwrap.1 true "https://api.wiil.io/v1" "/organizations"
      ⟨200, "body", some (.obj [("success", .bool true), ("data", .num 7)]), ""⟩
      [] _ (by decide) (by decide) rfl).1
  · exact claim4_success_unwrap.2.2.2.2 true "https://api.wiil.io/v1" "/organizations/org1"
      ⟨204, "", none, ""⟩ (by decide) (by decide) rfl

/-- Claim C5: the `WiilClient` constructor validates before the transport is
built (the `.error` result of `wiilClientInit` carries no `HttpClientState`),
checking in order: empty API key, whitespace-only API key, base URL without
both scheme and host, non-positive timeout; when all checks pass,
construction succeeds with the transport state. -/
theorem claim5_config_validation : ∀ (k u : String) (t : Int),
    (k = "" → wiilClientInit k u t =
      .error ⟨"API key is required. Please provide a valid API key in the configuration."⟩) ∧
    (k ≠ "" → pyStrip k = "" → wiilClientInit k u t =
      .error ⟨"API key cannot be empty. Please provide a valid API key."⟩) ∧
    (pyStrip k ≠ "" → urlHasSchemeAndHost u = false → wiilClientInit k u t =
      .error ⟨s!"Invalid base URL: {u}. Please provide a valid URL."⟩) ∧
    (pyStrip k ≠ "" → urlHasSchemeAndHost u = true → t ≤ 0 → wiilClientInit k u t =
      .error ⟨"Timeout must be a positive number in seconds."⟩) ∧
    (pyStrip k ≠ "" → urlHasSchemeAndHost u = true → 0 < t → wiilClientInit k u t =
      .ok (mkHttpClient k u t)) := by
  intro k u t
  have hks : pyStrip k ≠ "" → k ≠ "" := by
    intro h hke
    subst hke
    exact h rfl
  refine ⟨?_, ?_, ?_, ?_, ?_⟩
  · intro h
    simp [wiilClientInit, validateConfig, h]
  · intro h1 h2
    simp [wiilClientInit, validateConfig, h1, h2]
  · intro h1 h2
    simp [wiilClientInit, validateConfig, hks h1, h1, h2]
  · intro h1 h2 h3
    simp [wiilClientInit, validateConfig, hks h1, h1, h2, h3]
  · intro h1 h2 h3
    rw [wiilClientInit, validateConfig]
    rw [if_neg (hks h1), if_neg h1, if_neg (by simp [h2]), if_neg (by omega : ¬ t ≤ 0)]

/-- Claim C5, witness: a valid configuration constructs the client, and a
whitespace-only API key is rejected with the blank-key error. -/
theorem claim5_witness :
    wiilClientInit "key" "https://api.wiil.io/v1" 30 =
      .ok (mkHttpClient "key" "https://api.wiil.io/v1" 30) ∧
    wiilClientInit " " "https://api.wiil.io/v1" 30 =
      .error ⟨"API key cannot be empty. Please provide a valid API key."⟩ := by
  constructor
  · exact (claim5_config_validation "key" "https://api.wiil.io/v1" 30).2.2.2.2
      (by decide) (by decide) (by decide)
  · exact (claim5_config_validation " " "https://api.wiil.io/v1" 30).2.1
      (by decide) (by decide)

/-- Claim C6: `CustomersResource.list` sends no query string when both
pagination arguments are `None`, sends exactly `page=2&pageSize=50` for
`list(page=2, page_size=50)`, always requests `base + built path`, and each
parameter appears in the query parameters exactly when it is not `None`. -/
theorem claim6_list_query_params :
    customersListPath none none = "/customers" ∧
    customersListPath (some 2) (some 50) = "/customers?page=2&pageSize=50" ∧
    (∀ (modern : Bool) (base : String) (page pageSize : Option Int) (r : HttpResp),
      (customersList modern base page pageSize r).sent =
        some ⟨base ++ customersListPath page pageSize, none⟩) ∧
    (∀ page pageSize : Option Int,
      lookupStr (customersListParams page pageSize) "page" = page.map toString ∧
      lookupStr (customersListParams page pageSize) "pageSize" = pageSize.map toString) := by
  refine ⟨rfl, rfl, fun _ _ _ _ _ => rfl, fun page pageSize => ?_⟩
  cases page <;> cases pageSize <;> simp [customersListParams, lookupStr]

/-- Claim C7, counterexample to the statement as written: `PaginationMeta`
accepts `page=1, pageSize=10, totalCount=0, totalPages=5,
hasNextPage=False, hasPreviousPage=False`, yet `hasNextPage ⇔ page <
totalPages` fails there — the model has no cross-field validator tying
`hasNextPage` to `page < totalPages`. -/
theorem claim7_counterexample :
    paginationMetaAccepts 1 10 0 5 false false = true ∧
    ¬((false = true) ↔ ((1 : Int) < 5)) := by decide

/-- Claim C7 (amended): `PaginationMeta` accepts a meta block exactly when
`page ≥ 1`, `0 < pageSize ≤ 1000`, `totalCount ≥ 0` and `totalPages ≥ 0`;
the `hasNextPage`/`hasPreviousPage` booleans are unconstrained, so the
`hasNextPage ⇔ page < totalPages` relation is not enforced at the
deserialization boundary. -/
theorem claim7_amended : ∀ (page pageSize totalCount totalPages : Int) (hn hp : Bool),
    paginationMetaAccepts page pageSize totalCount totalPages hn hp = true ↔
      (1 ≤ page ∧ 0 < pageSize ∧ pageSize ≤ 1000 ∧ 0 ≤ totalCount ∧ 0 ≤ totalPages) := by
  intro page pageSize totalCount totalPages hn hp
  simp [paginationMetaAccepts]
  omega

/-- Claim C7, witness: the bounds hold for an accepted meta block. -/
theorem claim7_witness :
    1 ≤ (1 : Int) ∧ 0 < (10 : Int) ∧ (10 : Int) ≤ 1000 ∧
      0 ≤ (0 : Int) ∧ 0 ≤ (5 : Int) :=
  (claim7_amended 1 10 0 5 true false).mp (by decide)

/-- Claim C8: `CustomersResource.get_by_phone` percent-encodes the phone
number into the path with `quote(phone, safe='')` — `'+1234567890'` produces
the path segment `%2B1234567890`, the request URL is always `base +
'/customers/phone/' + quote(phone)`, and every character outside the
always-safe set is percent-encoded. -/
theorem claim8_phone_percent_encoding :
    customersGetByPhonePath "+1234567890" = "/customers/phone/%2B1234567890" ∧
    (∀ (modern : Bool) (base phone : String) (r : HttpResp),
      (customersGetByPhone modern base phone r).sent =
        some ⟨base ++ customersGetByPhonePath phone, none⟩) ∧
    (∀ c : Char, alwaysSafe c = false →
      pyQuoteChar c = String.join ((utf8Bytes c).map fun b => "%" ++ hexByte b)) := by
  refine ⟨rfl, fun _ _ _ _ => rfl, fun c hc => ?_⟩
  simp [pyQuoteChar, hc]

/-- Claim C8, witness: `'+'` is not safe and encodes to `%2B`. -/
theorem claim8_witness : pyQuoteChar '+' = "%2B" := by
  have h := claim8_phone_percent_encoding.2.2 '+' (by decide)
  exact h.trans rfl

/-- Claim C9: when a schema validates a dict body, the transmitted payload is
exactly `schema(**body).model_dump(exclude_none=True)` — its keys are schema
field names (snake_case, not wire aliases) and no transmitted value is
`None`; concretely, `CustomersResource.create`, which hands `post` a
camelCase-keyed dump, transmits a snake_case-keyed payload (the inherited
required `id` must be supplied — without it construction fails with a
missing-`id` validation error and nothing is sent, last conjunct). -/
theorem claim9_validated_payload :
    (∀ (modern : Bool) (base path : String) (s : PSchema)
      (kvs : List (String × Json)) (r : HttpResp) (m : PyModel),
      construct s kvs = .ok m →
      (postRun modern base path (some s) (.dict kvs) r).sent =
        some ⟨base ++ path, some (.obj (modelDump false true m))⟩ ∧
      (putRun modern base path (some s) (.dict kvs) r).sent =
        some ⟨base ++ path, some (.obj (modelDump false true m))⟩ ∧
      (patchRun modern base path (some s) (.dict kvs) r).sent =
        some ⟨base ++ path, some (.obj (modelDump false true m))⟩ ∧
      (∀ (k : String) (v : Json), (k, v) ∈ modelDump false true m →
        (∃ f ∈ s, f.name = k) ∧ v ≠ Json.null)) ∧
    customersCreate true "https://api.wiil.io/v1"
      [("id", .str "cust_1"), ("customerId", .str "c1"), ("isValidatedNames", .bool true)]
      ⟨200, "ok", some (.obj [("data", .num 1)]), ""⟩ =
      .ok ⟨some ⟨"https://api.wiil.io/v1/customers",
        some (.obj [("id", .str "cust_1"),
                    ("customer_id", .str "c1"),
                    ("preferred_language", .str "en"),
                    ("call_priority", .str "medium"),
                    ("preferred_contact_method", .str "email"),
                    ("is_validated_names", .bool true)])⟩,
        .success (.num 1)⟩ ∧
    customersCreate true "https://api.wiil.io/v1"
      [("customerId", .str "c1"), ("isValidatedNames", .bool true)]
      ⟨200, "ok", some (.obj [("data", .num 1)]), ""⟩ =
      .error (.arr [.obj [("type", .str "missing"), ("loc", .arr [.str "id"])]]) := by
  refine ⟨?_, rfl, rfl⟩
  · intro modern base path s kvs r m h
    have hv : validatePhase (some s) (.dict kvs) = .ok (.dict (modelDump false true m)) := by
      simp [validatePhase, h]
    refine ⟨?_, ?_, ?_, ?_⟩
    · simp [postRun, bodyVerbRun, hv]
    · simp [putRun, bodyVerbRun, hv]
    · simp [patchRun, bodyVerbRun, hv]
    · intro k v hkv
      obtain ⟨fv, hfv, hveq, hnull, hk⟩ := modelDump_mem false m k v hkv
      refine ⟨⟨fv.1, construct_mem s kvs m h fv hfv, ?_⟩, isNull_false_ne v hnull⟩
      simp at hk
      exact hk.symm

/-- Claim C9, witness: validating a camelCase-keyed dict body (with the
inherited required `id`) against `CreateCustomer` transmits the
snake_case-keyed, `None`-free payload. -/
theorem claim9_witness :
    (postRun true "https://api.wiil.io/v1" "/customers" (some CreateCustomerSchema)
      (.dict [("id", .str "cust_1"), ("customerId", .str "c1")])
      ⟨200, "ok", some (.obj [("data", .num 1)]), ""⟩).sent =
      some ⟨"https://api.wiil.io/v1/customers",
        some (.obj [("id", .str "cust_1"),
                    ("customer_id", .str "c1"),
                    ("preferred_language", .str "en"),
                    ("call_priority", .str "medium"),
                    ("preferred_contact_method", .str "email"),
                    ("is_validated_names", .bool false)])⟩ := by
  exact (claim9_validated_payload.1 true "https://api.wiil.io/v1" "/customers"
    CreateCustomerSchema [("id", .str "cust_1"), ("customerId", .str "c1")]
    ⟨200, "ok", some (.obj [("data", .num 1)]), ""⟩ _ rfl).1

/-- Claim C10: a body that is neither a dict nor a `BaseModel` instance is
sent unchanged by `post`/`put`/`patch` even when a schema is supplied — no
validation runs and the outcome is never a `WiilValidationError`. -/
theorem claim10_non_dict_body_unvalidated : ∀ (modern : Bool) (base path : String)
    (s : PSchema) (v : Json) (r : HttpResp),
    v.isObj = false →
    (postRun modern base path (some s) (.other v) r =
      ⟨some ⟨base ++ path, some v⟩, handleResponse modern (base ++ path) r⟩ ∧
     putRun modern base path (some s) (.other v) r =
      ⟨some ⟨base ++ path, some v⟩, handleResponse modern (base ++ path) r⟩ ∧
     patchRun modern base path (some s) (.other v) r =
      ⟨some ⟨base ++ path, some v⟩, handleResponse modern (base ++ path) r⟩) ∧
    (∀ m d : Json,
      (postRun modern base path (some s) (.other v) r).outcome ≠ .validationError m d) := by
  intro modern base path s v r hv
  refine ⟨⟨rfl, rfl, rfl⟩, fun m d => ?_⟩
  exact handleResponse_ne_validation modern (base ++ path) r m d

/-- Claim C10, witness: a list body with a schema supplied is sent verbatim. -/
theorem claim10_witness :
    (postRun true "https://api.wiil.io/v1" "/organizations" (some CreateCustomerSchema)
      (.other (.arr [.str "a", .str "b"]))
      ⟨200, "body", some (.obj [("data", .num 1)]), ""⟩).sent =
      some ⟨"https://api.wiil.io/v1/organizations", some (.arr [.str "a", .str "b"])⟩ := by
  have h := (claim10_non_dict_body_unvalidated true "https://api.wiil.io/v1" "/organizations"
    CreateCustomerSchema (.arr [.str "a", .str "b"])
    ⟨200, "body", some (.obj [("data", .num 1)]), ""⟩ rfl).1.1
  rw [h]
  rfl

end Wiil
